import Mathlib

/-!
A verification development for the finance-bot frontend core: the chat
orchestrator (ChatContext in src/frontend/src/components/Chat/MessageInput.tsx),
the chat service (src/frontend/src/services/chatService.ts) and the axios
API client with its token-refresh interceptor (src/unnamed/part_000).
Each definition is a shallow embedding of the corresponding source function;
network calls are modelled by response oracles passed as arguments, and the
requests an operation issues are returned explicitly as a list of ApiCall
values so that claims about issued (or suppressed) network traffic can be
stated.
-/

set_option linter.unusedVariables false

namespace FinanceBot

/-! ## Data model (src/frontend/src/types, part_003 and api.ts) -/

/-- Message.role is the union type of the literals user and assistant. -/
inductive Role where
  | user
  | assistant
deriving DecidableEq, Repr

/-- Message from types/chat (part_003 lines 3-14); the optional metadata
blob is carried by no claim and is omitted. Timestamps are the ISO strings
the source stores, compared lexicographically (which agrees with
chronological order for ISO-8601 strings of equal format). -/
structure Message where
  id : String
  chat_id : String
  role : Role
  content : String
  created_at : String
deriving DecidableEq, Repr

/-- Chat from types/chat (part_003 lines 16-23). -/
structure Chat where
  id : String
  user_id : Option String
  title : Option String
  is_anonymous : Bool
  created_at : String
  updated_at : Option String
  message_count : Option Nat
deriving DecidableEq, Repr

/-- PaginatedMessages from types/chat (part_003 lines 46-53). -/
structure PaginatedMessages where
  messages : List Message
  total : Nat
  page : Nat
  page_size : Nat
  has_next : Bool
  has_previous : Bool
deriving DecidableEq, Repr

/-- ChatMessageRequest from types/chat (part_003 lines 26-30);
session_id is never set by the orchestrator and is omitted. -/
structure ChatMessageRequest where
  message : String
  chat_id : Option String
deriving DecidableEq, Repr

/-- ChatMessageResponse from types/chat (part_003 lines 32-37);
sources and tokens_used are carried by no claim and are omitted. -/
structure ChatMessageResponse where
  message : Message
  chat : Option Chat
deriving DecidableEq, Repr

/-- TokenResponse from types/api.ts lines 76-81. -/
structure TokenResponse where
  access_token : String
  refresh_token : String
  token_type : String
  expires_in : Nat
deriving DecidableEq, Repr

/-- CONSTANTS.DEFAULT_PAGE_SIZE from lib/config.ts line 126. -/
def DEFAULT_PAGE_SIZE : Nat := 3

/-- The backend requests an orchestrator operation can issue. -/
inductive ApiCall where
  | getMessages (chatId : String) (page : Nat) (pageSize : Nat)
  | postMessage (body : ChatMessageRequest)
  | deleteChatCall (chatId : String)
deriving DecidableEq, Repr

/-- The ChatProvider state (MessageInput.tsx lines 130-137): chats,
currentChat, messages, isLoading, isChatLoading, error, hasMoreMessages,
currentPage. -/
structure ChatState where
  chats : List Chat
  currentChat : Option Chat
  messages : List Message
  isLoading : Bool
  isChatLoading : Bool
  error : Option String
  hasMoreMessages : Bool
  currentPage : Nat
deriving DecidableEq, Repr

/-! ## Welcome message (chatService.ts lines 18-27) -/

/-- WELCOME_MESSAGE from constants/welcomeMessage, the module appended in
src/frontend/src/components/Chat/ChatHistory.tsx line 75: the value of its
template literal, with the line breaks of the literal and its escape
sequences rendered as newlines. -/
def WELCOME_MESSAGE : String :=
  "\n👋 Welcome to FinanceBot! I\x27m here to help you with questions about:\n\n\n• **Account & Registration** - Creating accounts, verification, profile management\n\n• **Payments & Transactions** - Transfers, payments, transaction history\n\n• **Security & Fraud Prevention** - Account security, fraud prevention tips\n\n• **Regulations & Compliance** - Financial regulations, compliance requirements\n\n• **Technical Support** - App issues, troubleshooting, system support\n\nHow can I assist you today?\n"

/-- ChatService.getWelcomeMessage (chatService.ts lines 18-27): a locally
synthesized assistant message; the Date.now timestamp is passed in as now. -/
def getWelcomeMessage (now : String) : Message :=
  { id := "welcome-" ++ now
    chat_id := "welcome"
    role := Role.assistant
    content := WELCOME_MESSAGE
    created_at := now }

/-! ## Orchestrator operations (ChatContext in MessageInput.tsx) -/

/-- createNewChat (MessageInput.tsx lines 259-265): clears currentChat to
null and resets the window to a single welcome message; no API call is
made and no other state field is touched. -/
def createNewChat (now : String) (st : ChatState) : ChatState × List ApiCall :=
  ({ st with currentChat := none, messages := [getWelcomeMessage now] }, [])

/-- loadMessages (MessageInput.tsx lines 182-209). The oracle resp is the
outcome of the awaited ChatService.getMessages call; the state argument is
the state at completion time (the setMessages functional updater reads the
window as of completion). The function is unguarded: it always issues the
request, and it never consults currentChat, so no stale-response check
occurs. On success: page 1 replaces the window, page > 1 prepends the
returned items; hasMoreMessages and currentPage are updated. On error the
error field is set. The finally clause leaves isChatLoading false. -/
def loadMessages (chatId : String) (page : Nat)
    (resp : Except String PaginatedMessages) (st : ChatState) :
    ChatState × List ApiCall :=
  let issued := [ApiCall.getMessages chatId page DEFAULT_PAGE_SIZE]
  match resp with
  | Except.ok r =>
      ({ st with
          messages := if page = 1 then r.messages else r.messages ++ st.messages,
          hasMoreMessages := r.has_next,
          currentPage := page,
          isChatLoading := false }, issued)
  | Except.error e =>
      ({ st with error := some e, isChatLoading := false }, issued)

/-- loadMoreMessages (MessageInput.tsx lines 438-448): returns immediately
(no request, no state change) when there is no current chat, no more
messages, or a chat load is already in flight; otherwise calls
loadMessages on the current chat with page currentPage + 1. -/
def loadMoreMessages (resp : Except String PaginatedMessages)
    (st : ChatState) : ChatState × List ApiCall :=
  match st.currentChat with
  | none => (st, [])
  | some c =>
      if !st.hasMoreMessages || st.isChatLoading then (st, [])
      else loadMessages c.id (st.currentPage + 1) resp st

/-- deleteChat (MessageInput.tsx lines 290-341). deleteResp is the outcome
of ChatService.deleteChat; reloadResp is the outcome of the
loadMessages(nextChat.id, 1) reload issued when the deleted chat was
current and another chat remains. setError(null) runs before the await;
the finally clause leaves isLoading false. -/
def deleteChat (chatId : String) (deleteResp : Except String Unit)
    (reloadResp : Except String PaginatedMessages) (now : String)
    (isAuthenticated : Bool) (st : ChatState) : ChatState × List ApiCall :=
  match deleteResp with
  | Except.error e =>
      ({ st with error := some e, isLoading := false }, [ApiCall.deleteChatCall chatId])
  | Except.ok _ =>
      let updatedChats := st.chats.filter (fun c => c.id ≠ chatId)
      if (st.currentChat.map Chat.id) = some chatId then
        match updatedChats with
        | nextChat :: _ =>
            let st1 := { st with chats := updatedChats, currentChat := some nextChat,
                                 currentPage := 1, error := none }
            let res := loadMessages nextChat.id 1 reloadResp st1
            ({ res.1 with isLoading := false }, ApiCall.deleteChatCall chatId :: res.2)
        | [] =>
            if isAuthenticated then
              let res := createNewChat now { st with chats := updatedChats, error := none }
              ({ res.1 with isLoading := false }, ApiCall.deleteChatCall chatId :: res.2)
            else
              ({ st with chats := updatedChats, currentChat := none,
                         messages := [getWelcomeMessage now], error := none,
                         isLoading := false }, [ApiCall.deleteChatCall chatId])
      else
        ({ st with chats := updatedChats, error := none, isLoading := false },
         [ApiCall.deleteChatCall chatId])

/-! ## Chronological-window predicates (spec section 8, claim C6) -/

/-- The window is strictly chronologically ordered by created_at
(timestamps compared lexicographically on their character sequences, the
string order of the ISO format). -/
def chronOrdered (ms : List Message) : Prop :=
  List.Pairwise (fun a b => a.created_at.data < b.created_at.data) ms

/-- No two messages of the window share an id. -/
def idsNodup (ms : List Message) : Prop :=
  (ms.map Message.id).Nodup

/-! ## Error values (part_000 transformError, chatService.ts handleChatError)

JavaScript error values reaching the orchestrator are of two shapes: the
plain ApiError object produced by the axios interceptor's transformError
(which owns the fields detail, status_code and type), and an Error
instance (which owns neither status_code nor type, only a message). The
retry guard in sendMessage tests for the presence of status_code and type,
so the distinction is load-bearing and is kept as two constructors. -/

inductive JsError where
  | apiError (detail : String) (status_code : Nat) (etype : Option String)
  | errorInstance (message : String)
deriving DecidableEq, Repr

/-- The raw axios rejection reaching transformError: a response was
received (status plus optional body detail and type), or a request was
sent but no response arrived (connectivity), or a plain Error was thrown
before any request. -/
inductive RawAxiosError where
  | response (status : Nat) (detail : Option String) (etype : Option String)
  | request (message : String)
  | plain (message : String)
deriving DecidableEq, Repr

/-- transformError (part_000 lines 127-162): the error normalizer. A
received response maps to its status and detail; a connectivity failure
maps to status_code 0 with type network_error; anything else maps to
status_code 500 with type unknown_error. -/
def transformError : RawAxiosError → JsError
  | RawAxiosError.response status detail etype =>
      JsError.apiError (detail.getD "An error occurred") status etype
  | RawAxiosError.request _ =>
      JsError.apiError "Network error - please check your connection" 0
        (some "network_error")
  | RawAxiosError.plain m =>
      JsError.apiError (if m = "" then "An unexpected error occurred" else m)
        500 (some "unknown_error")

/-- ChatService.handleChatError (chatService.ts lines 204-214): an error
owning a detail field is wrapped into a new Error carrying only that
detail as its message (dropping status_code and type); an Error instance
is returned unchanged. -/
def handleChatError : JsError → JsError
  | JsError.apiError detail _ _ => JsError.errorInstance detail
  | JsError.errorInstance m => JsError.errorInstance m

/-- Modelled from the spec: getErrorMessage from lib/utils, a module absent
from src/; per the spec every error is surfaced as its human-readable
detail (or message) string. -/
def getErrorMessage : JsError → String
  | JsError.apiError d _ _ => d
  | JsError.errorInstance m => m

/-- ChatService.sendMessage (chatService.ts lines 127-142) as seen by one
attempt of the orchestrator's retry loop: the axios rejection is first
normalized by the response interceptor (transformError, part_000 line 93)
and then wrapped by handleChatError before being re-thrown. -/
def serviceSend (svc : Nat → Except RawAxiosError ChatMessageResponse)
    (i : Nat) : Except JsError ChatMessageResponse :=
  match svc i with
  | Except.ok r => Except.ok r
  | Except.error e => Except.error (handleChatError (transformError e))

/-! ## The send retry loop (MessageInput.tsx lines 367-400) -/

/-- The retry guard (MessageInput.tsx lines 377-387): the caught error must
be an object owning both a status_code and a type field, and then either
status_code is 0 or type is the string network_error. An Error instance
owns neither field, so it never satisfies the guard. -/
def isRetryableNetworkError : JsError → Bool
  | JsError.apiError _ sc ty => sc == 0 || ty == some "network_error"
  | JsError.errorInstance _ => false

/-- maxRetries (MessageInput.tsx line 370). -/
def maxRetries : Nat := 2

/-- Outcome of the while loop: the response or re-thrown error, the number
of ChatService.sendMessage attempts made, and the backoff delays awaited
in milliseconds (setTimeout of 1000 * retryCount, line 392). -/
structure SendLoopResult where
  result : Except JsError ChatMessageResponse
  attempts : Nat
  delays : List Nat
deriving Repr

/-- One unrolling of the while loop of MessageInput.tsx lines 372-400,
fuelled by the remaining permitted iterations: attempt the call; on
success break with the response; on an error satisfying the retry guard
increment retryCount and, if retryCount is still at most maxRetries, await
the 1000 * retryCount backoff and continue; otherwise re-throw. The fuel
is maxRetries + 1 - retryCount, so the base case mirrors the loop exiting
with response undefined, which the validation at lines 403-404 turns into
the Invalid-response error. -/
def sendLoopGo (svc : Nat → Except JsError ChatMessageResponse) :
    Nat → Nat → Nat → SendLoopResult
  | 0, _, _ =>
      { result := Except.error (JsError.errorInstance "Invalid response from server")
        attempts := 0
        delays := [] }
  | fuel + 1, attemptIdx, retryCount =>
      match svc attemptIdx with
      | Except.ok r => { result := Except.ok r, attempts := 1, delays := [] }
      | Except.error e =>
          if isRetryableNetworkError e && retryCount + 1 ≤ maxRetries then
            let rest := sendLoopGo svc fuel (attemptIdx + 1) (retryCount + 1)
            { result := rest.result
              attempts := rest.attempts + 1
              delays := 1000 * (retryCount + 1) :: rest.delays }
          else
            { result := Except.error e, attempts := 1, delays := [] }

/-- The whole retry loop, entered with retryCount 0. -/
def runSendLoop (svc : Nat → Except JsError ChatMessageResponse) : SendLoopResult :=
  sendLoopGo svc (maxRetries + 1) 0 0

/-- The JavaScript String.prototype.trim call of the sendMessage guard
(MessageInput.tsx line 346): drops whitespace from both ends. -/
def jsTrim (s : String) : String :=
  String.mk
    (((s.data.dropWhile Char.isWhitespace).reverse.dropWhile Char.isWhitespace).reverse)

/-- The fixed apology content appended on exhausted failure
(MessageInput.tsx lines 425-426). -/
def apologyContent : String :=
  "I\x27m sorry, I\x27m having trouble processing your request right now. Please try again later."

/-- The optimistic user echo (MessageInput.tsx lines 348-354). -/
def optimisticUserMessage (nowMs : Nat) (nowIso : String) (text : String)
    (st : ChatState) : Message :=
  { id := "user-" ++ toString nowMs
    chat_id := (st.currentChat.map Chat.id).getD "temp"
    role := Role.user
    content := text
    created_at := nowIso }

/-- The synthetic assistant apology (MessageInput.tsx lines 421-428). -/
def apologyMessage (nowMs : Nat) (nowIso : String) (st : ChatState) : Message :=
  { id := "error-" ++ toString nowMs
    chat_id := (st.currentChat.map Chat.id).getD "temp"
    role := Role.assistant
    content := apologyContent
    created_at := nowIso }

/-- sendMessage (MessageInput.tsx lines 344-435). svc is the oracle of raw
backend outcomes per attempt; nowMs and nowIso stand for the Date.now and
toISOString calls (the source calls them more than once; the claims do not
depend on ids or timestamps differing between those calls). Behaviour:
reject re-entrant or blank calls; append the optimistic user message and
clear the error; run the retry loop; on success append the returned
assistant message and, when the response carries a chat whose id differs
from the current one, adopt it as current and prepend it to chats; on
failure record the error message and append the fixed apology message.
The postMessage request is issued once per attempt, with chat_id omitted
for the temp sentinel. -/
def sendMessage (svc : Nat → Except RawAxiosError ChatMessageResponse)
    (nowMs : Nat) (nowIso : String) (text : String) (st : ChatState) :
    ChatState × List ApiCall :=
  if jsTrim text == "" || st.isLoading then (st, [])
  else
    let userMessage := optimisticUserMessage nowMs nowIso text st
    let st1 := { st with messages := st.messages ++ [userMessage],
                         isLoading := true, error := none }
    let messageData : ChatMessageRequest :=
      { message := text
        chat_id := if st.currentChat.map Chat.id = some "temp" then none
                   else st.currentChat.map Chat.id }
    let loop := runSendLoop (serviceSend svc)
    let issued := List.replicate loop.attempts (ApiCall.postMessage messageData)
    match loop.result with
    | Except.ok r =>
        let st2 := { st1 with messages := st1.messages ++ [r.message],
                              isLoading := false }
        match r.chat with
        | some c =>
            if some c.id ≠ st.currentChat.map Chat.id then
              ({ st2 with currentChat := some c, chats := c :: st.chats }, issued)
            else (st2, issued)
        | none => (st2, issued)
    | Except.error e =>
        ({ st1 with error := some (getErrorMessage e),
                    messages := st1.messages ++ [apologyMessage nowMs nowIso st],
                    isLoading := false }, issued)

/-! ## Token lifecycle guard (src/unnamed/part_000) -/

/-- Substring containment, the model of the JavaScript String.includes
calls of part_000. -/
def containsSubstr (s pat : String) : Bool :=
  decide (pat.data <:+: s.data)

/-- The auth-endpoint exemption (part_000 lines 22-28 and 57-63): the url
contains /auth/ and one of the five exempt path fragments. -/
def isAuthEndpoint (url : String) : Bool :=
  containsSubstr url "/auth/" &&
    (containsSubstr url "/login" || containsSubstr url "/register" ||
     containsSubstr url "/signin" || containsSubstr url "/forgot-password" ||
     containsSubstr url "/reset-password")

/-- A failed response as the response interceptor sees it: the HTTP
status, the request url and the per-request retried marker
(originalRequest._retry, part_000 lines 66-71). -/
structure FailedResponse where
  status : Nat
  url : String
  retryFlag : Bool
deriving DecidableEq, Repr

/-- The refresh decision of the response interceptor (part_000 lines
66-82): a handler reaches the refreshTokens call exactly when the status
is 401, the request was not already retried, the endpoint is not exempt,
and the stored tokens carry a truthy refresh_token. The interceptor keeps
no shared pending-refresh handle: no variable of part_000 records an
in-flight refresh, so the decision reads only the request itself and the
stored tokens. -/
def issuesRefreshCall (stored : Option TokenResponse) (r : FailedResponse) : Bool :=
  r.status == 401 && !r.retryFlag && !isAuthEndpoint r.url &&
    (match stored with
     | some t => t.refresh_token != ""
     | none => false)

/-- A burst of 401 responses arriving while the first refresh is still
unresolved, under the single-threaded cooperative scheduling of section 5
of the spec: each rejection handler runs up to its await refreshTokens
suspension before the next one starts, storage is only written when a
refresh resolves (storeTokens, part_000 line 77), and part_000 keeps no
shared in-flight-refresh state, so every handler evaluates
issuesRefreshCall against the same stored tokens and each passing handler
issues its own refreshTokens call. The value is the number of refresh
calls issued during the burst. -/
def refreshCallsInBurst (stored : Option TokenResponse)
    (reqs : List FailedResponse) : Nat :=
  (reqs.filter (issuesRefreshCall stored)).length

/-- The two persisted entries (lib/config.ts lines 105-110): the
serialized User under financebot-user and the serialized TokenPair under
financebot-tokens. -/
structure LocalStorage where
  userEntry : Option String
  tokensEntry : Option String
deriving DecidableEq, Repr

/-- clearStoredTokens (part_000 lines 111-113): removes only the
financebot-tokens entry. -/
def clearStoredTokens (s : LocalStorage) : LocalStorage :=
  { s with tokensEntry := none }

/-- The observable outcome of the interceptor's refresh-failure branch. -/
structure RefreshFailureOutcome where
  storage : LocalStorage
  redirectedToHome : Bool
  failurePropagated : Bool
deriving DecidableEq, Repr

/-- The catch branch of the response interceptor on a failed refresh
(part_000 lines 83-90): when the original endpoint is not exempt, clear
the stored tokens and redirect to the home page; in every case reject
with the refresh error. -/
def onRefreshFailure (isAuthEp : Bool) (s : LocalStorage) : RefreshFailureOutcome :=
  if !isAuthEp then
    { storage := clearStoredTokens s
      redirectedToHome := true
      failurePropagated := true }
  else
    { storage := s, redirectedToHome := false, failurePropagated := true }

/-! ## getChats response normalization (chatService.ts lines 32-64)

The success-path checks of getChats inspect the decoded JSON body, so the
body is modelled as a JavaScript value. Arrays carry, besides their items,
an association list of named properties, because assigning a named
property to an array value is legal in JavaScript and the chats coercion
can perform exactly that write. -/

inductive JsValue where
  | nullV
  | undef
  | boolV (b : Bool)
  | numV (n : Int)
  | strV (s : String)
  | arrV (items : List JsValue) (props : List (String × JsValue))
  | objV (fields : List (String × JsValue))

/-- JavaScript truthiness of the modelled values (NaN is not modelled). -/
def jsTruthy : JsValue → Bool
  | JsValue.nullV => false
  | JsValue.undef => false
  | JsValue.boolV b => b
  | JsValue.numV n => n != 0
  | JsValue.strV s => s != ""
  | JsValue.arrV _ _ => true
  | JsValue.objV _ => true

/-- Whether the JavaScript typeof of the value is the string object; for
null it is. -/
def jsTypeofObject : JsValue → Bool
  | JsValue.nullV => true
  | JsValue.arrV _ _ => true
  | JsValue.objV _ => true
  | _ => false

/-- Property read: a missing property reads as undefined. -/
def getProp (v : JsValue) (k : String) : JsValue :=
  match v with
  | JsValue.objV fs => (fs.lookup k).getD JsValue.undef
  | JsValue.arrV _ ps => (ps.lookup k).getD JsValue.undef
  | _ => JsValue.undef

/-- Replace or append a binding in an association list. -/
def setPropList (fs : List (String × JsValue)) (k : String) (v : JsValue) :
    List (String × JsValue) :=
  match fs with
  | [] => [(k, v)]
  | (k0, v0) :: rest =>
      if k0 = k then (k, v) :: rest else (k0, v0) :: setPropList rest k v

/-- Property write on objects and arrays; on primitives the write is
observably a no-op (that case is unreachable on the getChats path). -/
def setProp (o : JsValue) (k : String) (v : JsValue) : JsValue :=
  match o with
  | JsValue.objV fs => JsValue.objV (setPropList fs k v)
  | JsValue.arrV xs ps => JsValue.arrV xs (setPropList ps k v)
  | other => other

/-- Array.isArray. -/
def isJsArray : JsValue → Bool
  | JsValue.arrV _ _ => true
  | _ => false

/-- The fallback page getChats builds when the body has no usable
structure (chatService.ts lines 43-50). -/
def emptyChatsPage : JsValue :=
  JsValue.objV
    [("chats", JsValue.arrV [] []), ("total", JsValue.numV 0),
     ("page", JsValue.numV 1), ("page_size", JsValue.numV 10),
     ("has_next", JsValue.boolV false), ("has_previous", JsValue.boolV false)]

/-- The success path of ChatService.getChats (chatService.ts lines
36-59): a falsy or non-object body is replaced by the well-formed empty
page; a body whose chats property is not an array has that property
overwritten with an empty array; otherwise the body is returned as is.
The path contains no throw, so the function is total. -/
def getChatsOnSuccess (data : JsValue) : JsValue :=
  if !jsTruthy data || !jsTypeofObject data then emptyChatsPage
  else if isJsArray (getProp data "chats") then data
  else setProp data "chats" (JsValue.arrV [] [])

/-! ## Claim C9: createNew semantics -/

/-- Claim C9 counterexample: createNewChat does not reset pagination. On a
state with currentPage 3 and hasMoreMessages true, both fields survive the
call unchanged, refuting the claimed reset of currentPage to 1 and
hasMoreMessages to false. -/
theorem createNewChat_pagination_survives :
    (createNewChat "now" ⟨[], none, [], false, false, none, true, 3⟩).1.currentPage = 3
  ∧ (createNewChat "now" ⟨[], none, [], false, false, none, true, 3⟩).1.hasMoreMessages = true := by
  constructor <;> rfl

/-- Claim C9 (amended): every call to createNewChat is local-only (it
issues no backend call) and leaves the state with currentChat null and the
window equal to exactly one welcome message; all other fields, including
currentPage and hasMoreMessages, keep their prior values. -/
theorem createNewChat_local_only (now : String) (st : ChatState) :
    createNewChat now st
      = ({ st with currentChat := none, messages := [getWelcomeMessage now] }, []) := rfl

/-! ## Claim C8: refresh-failure cleanup -/

/-- Claim C8 counterexample: on a failed token refresh the interceptor
clears only the tokens entry; starting from a storage holding both
serialized entries, the user entry survives while the tokens entry is
removed, refuting the claim that both entries are cleared together. -/
theorem refreshFailure_user_entry_survives :
    (onRefreshFailure false ⟨some "user-json", some "tokens-json"⟩).storage.userEntry
        = some "user-json"
  ∧ (onRefreshFailure false ⟨some "user-json", some "tokens-json"⟩).storage.tokensEntry
        = none := by
  constructor <;> rfl

/-- Claim C8 (amended): for every token refresh attempt that fails on a
non-exempt endpoint, only the serialized TokenPair entry is cleared from
storage (the serialized User entry keeps its prior value), the global
session-expired redirect is invoked, and the refresh failure is propagated
to the caller. -/
theorem onRefreshFailure_clears_only_tokens (s : LocalStorage) :
    onRefreshFailure false s
      = { storage := { userEntry := s.userEntry, tokensEntry := none },
          redirectedToHome := true,
          failurePropagated := true } := rfl

/-! ## Claim C4: the in-flight-load guard -/

/-- Claim C4 counterexample: loadMessages itself is not guarded. On a
state with isChatLoading true it still issues the getMessages request and
still mutates currentPage, refuting the claim that such a call is dropped
as a no-op. -/
theorem loadMessages_runs_while_busy :
    (⟨[], none, [], false, true, none, false, 1⟩ : ChatState).isChatLoading = true
  ∧ (loadMessages "a" 2
        (Except.ok ⟨[⟨"m1", "a", Role.assistant, "x", "t1"⟩], 1, 2, 3, true, false⟩)
        ⟨[], none, [], false, true, none, false, 1⟩).2
      = [ApiCall.getMessages "a" 2 DEFAULT_PAGE_SIZE]
  ∧ (loadMessages "a" 2
        (Except.ok ⟨[⟨"m1", "a", Role.assistant, "x", "t1"⟩], 1, 2, 3, true, false⟩)
        ⟨[], none, [], false, true, none, false, 1⟩).1.currentPage = 2 := by
  refine ⟨rfl, rfl, rfl⟩

/-- Claim C4 (amended): the in-flight guard lives on loadMoreMessages, not
on loadMessages: whenever a load is already in flight (isChatLoading
true), a loadMoreMessages call is dropped as a no-op, issuing no request
and leaving the state unchanged, while loadMessages itself always issues
its getMessages request. -/
theorem loadMore_dropped_while_busy (resp : Except String PaginatedMessages)
    (st : ChatState) (h : st.isChatLoading = true) :
    loadMoreMessages resp st = (st, [])
  ∧ ∀ chatId page r,
      (loadMessages chatId page r st).2
        = [ApiCall.getMessages chatId page DEFAULT_PAGE_SIZE] := by
  constructor
  · cases hc : st.currentChat <;> simp [loadMoreMessages, hc, h]
  · intro chatId page r
    cases r <;> rfl

/-- Claim C4 witness: a concrete busy state on which loadMoreMessages is a
no-op while loadMessages still issues its request. -/
theorem loadMore_dropped_while_busy_witness :
    (⟨[], none, [], false, true, none, true, 1⟩ : ChatState).isChatLoading = true
  ∧ loadMoreMessages (Except.error "down")
        (⟨[], none, [], false, true, none, true, 1⟩ : ChatState)
      = (⟨[], none, [], false, true, none, true, 1⟩, []) :=
  ⟨rfl, (loadMore_dropped_while_busy (Except.error "down")
      ⟨[], none, [], false, true, none, true, 1⟩ rfl).1⟩

/-! ## Claim C5: the stale-response rule -/

/-- Claim C5 counterexample: loadMessages performs no id comparison at
completion time.  With the current conversation changed to B by completion
time, the page-1 response issued for A still replaces the window and still
overwrites hasMoreMessages, refuting the claim that the stale result is
discarded without mutating state. -/
theorem loadMessages_applies_stale_response :
    ((⟨[], some ⟨"B", none, none, false, "t", none, none⟩,
        [⟨"m2", "B", Role.user, "y", "t2"⟩], false, true, none, false, 1⟩ :
        ChatState).currentChat.map Chat.id = some "B")
  ∧ (loadMessages "A" 1
        (Except.ok ⟨[⟨"m1", "A", Role.assistant, "x", "t1"⟩], 1, 1, 3, true, false⟩)
        ⟨[], some ⟨"B", none, none, false, "t", none, none⟩,
          [⟨"m2", "B", Role.user, "y", "t2"⟩], false, true, none, false, 1⟩).1.messages
      = [⟨"m1", "A", Role.assistant, "x", "t1"⟩]
  ∧ (loadMessages "A" 1
        (Except.ok ⟨[⟨"m1", "A", Role.assistant, "x", "t1"⟩], 1, 1, 3, true, false⟩)
        ⟨[], some ⟨"B", none, none, false, "t", none, none⟩,
          [⟨"m2", "B", Role.user, "y", "t2"⟩], false, true, none, false, 1⟩).1.hasMoreMessages
      = true := by
  refine ⟨rfl, rfl, rfl⟩

/-- Claim C5 (amended): a loadMessages response arriving after the current
conversation has changed is not discarded: completion never compares ids,
so the window, hasMoreMessages and currentPage are updated from the
response exactly as for a fresh load. -/
theorem loadMessages_ignores_current_chat (chatId : String) (page : Nat)
    (r : PaginatedMessages) (st : ChatState)
    (hstale : st.currentChat.map Chat.id ≠ some chatId) :
    (loadMessages chatId page (Except.ok r) st).1
      = { st with
            messages := if page = 1 then r.messages else r.messages ++ st.messages,
            hasMoreMessages := r.has_next,
            currentPage := page,
            isChatLoading := false } := rfl

/-- Claim C5 witness: a concrete stale completion (request issued for A,
current conversation now B) on which the amended description computes. -/
theorem loadMessages_ignores_current_chat_witness :
    ((⟨[], some ⟨"B", none, none, false, "t", none, none⟩, [], false, true, none,
        false, 1⟩ : ChatState).currentChat.map Chat.id ≠ some "A")
  ∧ (loadMessages "A" 1 (Except.ok ⟨[], 0, 1, 3, false, false⟩)
        ⟨[], some ⟨"B", none, none, false, "t", none, none⟩, [], false, true, none,
          false, 1⟩).1
      = { (⟨[], some ⟨"B", none, none, false, "t", none, none⟩, [], false, true,
            none, false, 1⟩ : ChatState) with
            messages := if 1 = 1 then ([] : List Message) else [] ++ [],
            hasMoreMessages := false, currentPage := 1, isChatLoading := false } :=
  ⟨by decide,
   loadMessages_ignores_current_chat "A" 1 ⟨[], 0, 1, 3, false, false⟩
     ⟨[], some ⟨"B", none, none, false, "t", none, none⟩, [], false, true, none,
       false, 1⟩ (by decide)⟩

/-! ## Claim C1: single-flight token refresh -/

/-- Claim C1: the interceptor keeps no shared in-flight-refresh handle, so
the single-flight property fails on the code. With a token pair stored,
two concurrent requests that each receive a 401 while the first refresh is
still unresolved (here a chat call and the non-exempt current-user call)
each pass the refresh guard, so two refreshTokens calls are issued where
the claim permits at most one. -/
theorem refresh_not_single_flight :
    refreshCallsInBurst (some ⟨"acc", "ref", "bearer", 3600⟩)
      [⟨401, "/chat/message", false⟩, ⟨401, "/auth/me", false⟩] = 2 := by
  decide

/-! ## Claim C2: the send retry policy -/

/-- Claim C2: the retry loop of sendMessage is written for the normalized
NetworkError shape and would indeed make 3 attempts with backoff delays of
1000 and 2000 ms on it, but ChatService.handleChatError wraps that shape
into an Error instance carrying only the detail string, which owns neither
status_code nor type; the guard therefore never fires, and a send whose
every backend attempt fails with a connectivity error makes exactly one
attempt, awaits no backoff, and issues exactly one postMessage request. -/
theorem send_retry_branch_unreachable :
    ((runSendLoop (fun _ =>
        Except.error (JsError.apiError
          "Network error - please check your connection" 0 (some "network_error")))).attempts
      = 3)
  ∧ ((runSendLoop (fun _ =>
        Except.error (JsError.apiError
          "Network error - please check your connection" 0 (some "network_error")))).delays
      = [1000, 2000])
  ∧ (handleChatError (transformError (RawAxiosError.request "ECONNREFUSED"))
      = JsError.errorInstance "Network error - please check your connection")
  ∧ ((runSendLoop (serviceSend (fun _ =>
        Except.error (RawAxiosError.request "ECONNREFUSED")))).attempts = 1)
  ∧ ((runSendLoop (serviceSend (fun _ =>
        Except.error (RawAxiosError.request "ECONNREFUSED")))).delays = [])
  ∧ ((sendMessage (fun _ => Except.error (RawAxiosError.request "ECONNREFUSED"))
        5 "t0" "hi" ⟨[], none, [], false, false, none, false, 1⟩).2.length = 1) := by
  refine ⟨rfl, rfl, rfl, rfl, rfl, rfl⟩

/-! ## Claim C6: chronological order and id uniqueness of the window -/

/-- Claim C6 counterexample: the page > 1 branch of loadMessages prepends
the fetched items by plain concatenation with no duplicate-id check. A
page-1 load of message m1 followed by a successful page-2 load whose items
again contain m1 leaves the window with the id m1 twice, refuting the
claim that no id already present is ever duplicated. -/
theorem loadMessages_can_duplicate_ids :
    ((loadMessages "A" 2
        (Except.ok ⟨[⟨"m1", "A", Role.assistant, "x", "t1"⟩], 2, 2, 3, false, false⟩)
        ((loadMessages "A" 1
          (Except.ok ⟨[⟨"m1", "A", Role.assistant, "x", "t1"⟩], 2, 1, 3, true, false⟩)
          ⟨[], none, [], false, false, none, false, 1⟩).1)).1.messages.map Message.id
      = ["m1", "m1"])
  ∧ ¬ idsNodup
      ((loadMessages "A" 2
        (Except.ok ⟨[⟨"m1", "A", Role.assistant, "x", "t1"⟩], 2, 2, 3, false, false⟩)
        ((loadMessages "A" 1
          (Except.ok ⟨[⟨"m1", "A", Role.assistant, "x", "t1"⟩], 2, 1, 3, true, false⟩)
          ⟨[], none, [], false, false, none, false, 1⟩).1)).1.messages) := by
  refine ⟨rfl, ?_⟩
  intro h
  unfold idsNodup at h
  have h1 : (List.map Message.id
      (loadMessages "A" 2
        (Except.ok ⟨[⟨"m1", "A", Role.assistant, "x", "t1"⟩], 2, 2, 3, false, false⟩)
        ((loadMessages "A" 1
          (Except.ok ⟨[⟨"m1", "A", Role.assistant, "x", "t1"⟩], 2, 1, 3, true, false⟩)
          ⟨[], none, [], false, false, none, false, 1⟩).1)).1.messages)
      = ["m1", "m1"] := rfl
  rw [h1] at h
  simp at h

/-- Claim C6 (amended): each page > 1 result is prepended to the existing
window by concatenation; the resulting window is strictly chronologically
ordered with no duplicate message ids provided the fetched page is itself
ordered, its items are strictly older than every message already in the
window, and its ids are fresh — the code checks none of this and relies on
the backend returning disjoint, ordered pages. -/
theorem loadMessages_prepend_ordered (chatId : String) (page : Nat)
    (r : PaginatedMessages) (st : ChatState)
    (hpage : page ≠ 1)
    (hr : chronOrdered r.messages) (hw : chronOrdered st.messages)
    (hrid : idsNodup r.messages) (hwid : idsNodup st.messages)
    (hord : ∀ a ∈ r.messages, ∀ b ∈ st.messages, a.created_at.data < b.created_at.data)
    (hdis : ∀ a ∈ r.messages, ∀ b ∈ st.messages, a.id ≠ b.id) :
    (loadMessages chatId page (Except.ok r) st).1.messages = r.messages ++ st.messages
  ∧ chronOrdered (loadMessages chatId page (Except.ok r) st).1.messages
  ∧ idsNodup (loadMessages chatId page (Except.ok r) st).1.messages := by
  have heq : (loadMessages chatId page (Except.ok r) st).1.messages
      = r.messages ++ st.messages := by
    simp [loadMessages, hpage]
  refine ⟨heq, ?_, ?_⟩
  · rw [chronOrdered, heq]
    exact List.pairwise_append.mpr ⟨hr, hw, hord⟩
  · rw [idsNodup, heq, List.map_append]
    refine List.Nodup.append hrid hwid ?_
    intro x hx hy
    obtain ⟨a, ha, rfl⟩ := List.mem_map.mp hx
    obtain ⟨b, hb, hab⟩ := List.mem_map.mp hy
    exact hdis a ha b hb hab.symm

/-- Claim C6 witness: a concrete well-behaved page-2 prepend (older item,
fresh id) on which the concatenation is ordered and duplicate-free. -/
theorem loadMessages_prepend_ordered_witness :
    ((loadMessages "A" 2
        (Except.ok ⟨[⟨"a", "A", Role.assistant, "x", "2024-01-01"⟩], 2, 2, 3, false, false⟩)
        ⟨[], none, [⟨"b", "A", Role.user, "y", "2024-01-02"⟩], false, false, none,
          true, 1⟩).1.messages
      = [⟨"a", "A", Role.assistant, "x", "2024-01-01"⟩] ++
          [⟨"b", "A", Role.user, "y", "2024-01-02"⟩])
  ∧ chronOrdered
      (loadMessages "A" 2
        (Except.ok ⟨[⟨"a", "A", Role.assistant, "x", "2024-01-01"⟩], 2, 2, 3, false, false⟩)
        ⟨[], none, [⟨"b", "A", Role.user, "y", "2024-01-02"⟩], false, false, none,
          true, 1⟩).1.messages
  ∧ idsNodup
      (loadMessages "A" 2
        (Except.ok ⟨[⟨"a", "A", Role.assistant, "x", "2024-01-01"⟩], 2, 2, 3, false, false⟩)
        ⟨[], none, [⟨"b", "A", Role.user, "y", "2024-01-02"⟩], false, false, none,
          true, 1⟩).1.messages :=
  loadMessages_prepend_ordered "A" 2
    ⟨[⟨"a", "A", Role.assistant, "x", "2024-01-01"⟩], 2, 2, 3, false, false⟩
    ⟨[], none, [⟨"b", "A", Role.user, "y", "2024-01-02"⟩], false, false, none, true, 1⟩
    (by decide)
    (by simp [chronOrdered])
    (by simp [chronOrdered])
    (by simp [idsNodup])
    (by simp [idsNodup])
    (by decide)
    (by decide)

/-! ## Claim C3: exhausted-failure behaviour of send -/

/-- Claim C3: whenever the retry loop of a send resolves to an error (all
retries exhausted or a non-retryable failure), the final state keeps the
optimistic user message in place, appends exactly one assistant-role
message carrying the fixed apology string, and records the error message
in the error field; the window is the prior window plus the user echo plus
the apology and nothing else, so the optimistic user message is never
removed. -/
theorem sendMessage_failure_appends_apology
    (svc : Nat → Except RawAxiosError ChatMessageResponse)
    (nowMs : Nat) (nowIso text : String) (st : ChatState) (e : JsError)
    (htext : ¬ jsTrim text = "") (hload : st.isLoading = false)
    (hfail : (runSendLoop (serviceSend svc)).result = Except.error e) :
    (sendMessage svc nowMs nowIso text st).1.messages
      = st.messages ++ [optimisticUserMessage nowMs nowIso text st,
                        apologyMessage nowMs nowIso st]
  ∧ (sendMessage svc nowMs nowIso text st).1.error = some (getErrorMessage e)
  ∧ (apologyMessage nowMs nowIso st).role = Role.assistant
  ∧ (apologyMessage nowMs nowIso st).content = apologyContent
  ∧ (optimisticUserMessage nowMs nowIso text st).role = Role.user
  ∧ (optimisticUserMessage nowMs nowIso text st).content = text := by
  have hguard : (jsTrim text == "" || st.isLoading) = false := by
    simp [hload, htext]
  refine ⟨?_, ?_, rfl, rfl, rfl, rfl⟩ <;>
    simp [sendMessage, hguard, hfail, List.append_assoc]

/-- Claim C3 witness: a send whose only backend outcome is a connectivity
failure, starting from the empty initial state. -/
theorem sendMessage_failure_appends_apology_witness :
    (¬ jsTrim "hi" = "")
  ∧ (sendMessage (fun _ => Except.error (RawAxiosError.request "offline")) 5 "t0" "hi"
        ⟨[], none, [], false, false, none, false, 1⟩).1.messages
      = [] ++ [optimisticUserMessage 5 "t0" "hi" ⟨[], none, [], false, false, none, false, 1⟩,
               apologyMessage 5 "t0" ⟨[], none, [], false, false, none, false, 1⟩]
  ∧ (sendMessage (fun _ => Except.error (RawAxiosError.request "offline")) 5 "t0" "hi"
        ⟨[], none, [], false, false, none, false, 1⟩).1.error
      = some (getErrorMessage
          (JsError.errorInstance "Network error - please check your connection")) :=
  ⟨by decide,
   (sendMessage_failure_appends_apology
      (fun _ => Except.error (RawAxiosError.request "offline")) 5 "t0" "hi"
      ⟨[], none, [], false, false, none, false, 1⟩
      (JsError.errorInstance "Network error - please check your connection")
      (by decide) rfl rfl).1,
   (sendMessage_failure_appends_apology
      (fun _ => Except.error (RawAxiosError.request "offline")) 5 "t0" "hi"
      ⟨[], none, [], false, false, none, false, 1⟩
      (JsError.errorInstance "Network error - please check your connection")
      (by decide) rfl rfl).2.1⟩

/-! ## Claim C7: deletion of the current conversation -/

/-- Claim C7: after a successful deleteChat of the current conversation,
if any conversation remains the first remaining one (in list order)
becomes current — never null — and its first message page is reloaded
(request issued; on a successful reload the window, page cursor and
has-more flag come from that page); if none remains the state falls back
to createNew semantics: current null and the window exactly one welcome
message. -/
theorem deleteChat_current_selects_next_or_resets
    (chatId : String) (reloadResp : Except String PaginatedMessages)
    (now : String) (auth : Bool) (st : ChatState) (cur : Chat)
    (hcur : st.currentChat = some cur) (hid : cur.id = chatId) :
    (∀ next rest, st.chats.filter (fun c => c.id ≠ chatId) = next :: rest →
        (deleteChat chatId (Except.ok ()) reloadResp now auth st).1.currentChat
            = some next
      ∧ ApiCall.getMessages next.id 1 DEFAULT_PAGE_SIZE
          ∈ (deleteChat chatId (Except.ok ()) reloadResp now auth st).2
      ∧ ∀ r, reloadResp = Except.ok r →
            (deleteChat chatId (Except.ok ()) reloadResp now auth st).1.messages
                = r.messages
          ∧ (deleteChat chatId (Except.ok ()) reloadResp now auth st).1.currentPage = 1
          ∧ (deleteChat chatId (Except.ok ()) reloadResp now auth st).1.hasMoreMessages
                = r.has_next)
  ∧ (st.chats.filter (fun c => c.id ≠ chatId) = [] →
        (deleteChat chatId (Except.ok ()) reloadResp now auth st).1.currentChat = none
      ∧ (deleteChat chatId (Except.ok ()) reloadResp now auth st).1.messages
          = [getWelcomeMessage now]) := by
  have hmap : st.currentChat.map Chat.id = some chatId := by
    rw [hcur]
    simp [hid]
  constructor
  · intro next rest hrem
    simp only [ne_eq, decide_not] at hrem
    refine ⟨?_, ?_, ?_⟩
    · cases reloadResp <;> simp [deleteChat, hmap, hrem, loadMessages]
    · cases reloadResp <;> simp [deleteChat, hmap, hrem, loadMessages]
    · intro r hr
      subst hr
      refine ⟨?_, ?_, ?_⟩ <;> simp [deleteChat, hmap, hrem, loadMessages]
  · intro hrem
    simp only [ne_eq, decide_not] at hrem
    cases auth <;> constructor <;>
      simp [deleteChat, hmap, hrem, createNewChat]

/-- Claim C7 witness: deleting current chat A with chat C remaining
selects C and reloads its first page; concrete state and responses. -/
theorem deleteChat_current_selects_next_witness :
    ((⟨[⟨"A", none, none, false, "t", none, none⟩, ⟨"C", none, none, false, "t", none, none⟩],
        some ⟨"A", none, none, false, "t", none, none⟩,
        [⟨"m1", "A", Role.assistant, "x", "t1"⟩], false, false, none, true, 2⟩ :
          ChatState).chats.filter (fun c => c.id ≠ "A")
      = ⟨"C", none, none, false, "t", none, none⟩ :: [])
  ∧ (deleteChat "A" (Except.ok ())
        (Except.ok ⟨[⟨"m2", "C", Role.user, "y", "t2"⟩], 1, 1, 3, false, false⟩) "now" true
        ⟨[⟨"A", none, none, false, "t", none, none⟩, ⟨"C", none, none, false, "t", none, none⟩],
          some ⟨"A", none, none, false, "t", none, none⟩,
          [⟨"m1", "A", Role.assistant, "x", "t1"⟩], false, false, none, true, 2⟩).1.currentChat
      = some ⟨"C", none, none, false, "t", none, none⟩
  ∧ (deleteChat "A" (Except.ok ())
        (Except.ok ⟨[⟨"m2", "C", Role.user, "y", "t2"⟩], 1, 1, 3, false, false⟩) "now" true
        ⟨[⟨"A", none, none, false, "t", none, none⟩, ⟨"C", none, none, false, "t", none, none⟩],
          some ⟨"A", none, none, false, "t", none, none⟩,
          [⟨"m1", "A", Role.assistant, "x", "t1"⟩], false, false, none, true, 2⟩).1.messages
      = [⟨"m2", "C", Role.user, "y", "t2"⟩] := by
  refine ⟨by decide, ?_, ?_⟩
  · exact ((deleteChat_current_selects_next_or_resets "A"
      (Except.ok ⟨[⟨"m2", "C", Role.user, "y", "t2"⟩], 1, 1, 3, false, false⟩) "now" true
      ⟨[⟨"A", none, none, false, "t", none, none⟩, ⟨"C", none, none, false, "t", none, none⟩],
        some ⟨"A", none, none, false, "t", none, none⟩,
        [⟨"m1", "A", Role.assistant, "x", "t1"⟩], false, false, none, true, 2⟩
      ⟨"A", none, none, false, "t", none, none⟩ rfl rfl).1
      ⟨"C", none, none, false, "t", none, none⟩ [] (by decide)).1
  · exact (((deleteChat_current_selects_next_or_resets "A"
      (Except.ok ⟨[⟨"m2", "C", Role.user, "y", "t2"⟩], 1, 1, 3, false, false⟩) "now" true
      ⟨[⟨"A", none, none, false, "t", none, none⟩, ⟨"C", none, none, false, "t", none, none⟩],
        some ⟨"A", none, none, false, "t", none, none⟩,
        [⟨"m1", "A", Role.assistant, "x", "t1"⟩], false, false, none, true, 2⟩
      ⟨"A", none, none, false, "t", none, none⟩ rfl rfl).1
      ⟨"C", none, none, false, "t", none, none⟩ [] (by decide)).2.2
      ⟨[⟨"m2", "C", Role.user, "y", "t2"⟩], 1, 1, 3, false, false⟩ rfl).1

/-! ## Claim C10: getChats tolerates malformed list bodies -/

/-- Claim C10: the success path of getChats never raises on a malformed
body (the modelled path is a total function): a falsy or non-object body
yields the well-formed empty page with total 0, page 1, page_size 10 and
both cursor flags false, and a body whose chats property is not an array
is returned with that property coerced to an empty array. -/
theorem getChats_tolerates_malformed_body (data : JsValue)
    (h : (!jsTruthy data || !jsTypeofObject data) = true
         ∨ isJsArray (getProp data "chats") = false) :
    getChatsOnSuccess data = emptyChatsPage
  ∨ getChatsOnSuccess data = setProp data "chats" (JsValue.arrV [] []) := by
  unfold getChatsOnSuccess
  by_cases h1 : (!jsTruthy data || !jsTypeofObject data) = true
  · rw [if_pos h1]
    exact Or.inl rfl
  · have h2 : isJsArray (getProp data "chats") = false := h.resolve_left h1
    rw [if_neg h1, if_neg ?_]
    · exact Or.inr rfl
    · rw [h2]
      exact Bool.false_ne_true

/-- Claim C10 witness: a string body (truthy but not an object) is
normalized to the empty page. -/
theorem getChats_tolerates_malformed_body_witness :
    ((!jsTruthy (JsValue.strV "oops") || !jsTypeofObject (JsValue.strV "oops")) = true)
  ∧ (getChatsOnSuccess (JsValue.strV "oops") = emptyChatsPage
     ∨ getChatsOnSuccess (JsValue.strV "oops")
         = setProp (JsValue.strV "oops") "chats" (JsValue.arrV [] [])) :=
  ⟨rfl, getChats_tolerates_malformed_body (JsValue.strV "oops") (Or.inl rfl)⟩

end FinanceBot
